import Mathlib

/-!
Verification development for the Jedi payment middleware
(`src/masumi/main.py`), a payment-gated orchestration layer.

The Python module keeps three in-memory dictionaries

  jobs               : job_id → job record
  payment_instances  : job_id → masumi Payment object (active monitoring)
  project_payments   : project key → True (entitlement records)

and orchestrates a payment-gated job lifecycle: `create_payment_job`
stores a job in `awaiting_payment` and starts monitoring; the settlement
callback `process_payment_and_execute` dispatches the stored action to a
downstream Express server and resolves the job to `completed` or
`failed`; `get_status` answers status queries; `setup_info` (and its
siblings) are free operations gated on `project_payments`.

The embedding below translates those functions line by line.  External
I/O (the Express call, the masumi payment network) is modelled by
outcome parameters supplied to each operation: the function is a pure
state transformer once the outcomes of its I/O calls are fixed.
Dictionaries become association lists keyed by `String`.  A ghost field
`dispatchLog` records every invocation of `call_express_api` made from
the settlement callback path, so that "the dispatch is executed exactly
once" is a statement about the model.

`jobs[job_id]["status"] = ...` on a missing key would raise `KeyError`
in Python; `updateJob` is a no-op in that case.  Every scenario in the
theorems has the job present (the callback is only ever registered after
the job record is stored), so the two semantics agree on all states the
theorems quantify over; where the distinction matters (the
`payment_instances[job_id]` lookup inside the callback) the `KeyError`
is modelled explicitly.
-/

namespace Jedi

/-- A minimal JSON value, for opaque payloads and downstream results. -/
inductive Json where
  | null : Json
  | str : String → Json
  | num : Int → Json
  | bool : Bool → Json
  | obj : List (String × Json) → Json
  deriving Repr

/-- Field lookup on a JSON object (`none` on non-objects / missing keys). -/
def Json.getField : Json → String → Option Json
  | .obj fs, k => fs.lookup k
  | _, _ => none

/-- The keys of `payload["data"]` that the engine itself inspects
(`process_payment_and_execute` reads `projectId` and `repoUrl`); the
rest of the data dict is opaque to the engine and carried as `rest`. -/
structure PayloadData where
  projectId : Option String
  repoUrl : Option String
  rest : List (String × Json)
  deriving Repr

/-- The payload dict built by the endpoints:
`{"endpoint": ..., "method": ..., "data": {...}}`. -/
structure Payload where
  endpoint : String
  method : String
  data : PayloadData
  deriving Repr

/-- A job record, as stored in the `jobs` dict by `create_payment_job`.
The Python dict has no `"error"` key until a failure adds one, hence
`error : Option String`; `payment_status` can be overwritten with
`None` by a status poll, hence `Option String`. -/
structure Job where
  status : String
  payment_status : Option String
  payment_id : String
  action : String
  payload : Payload
  result : Option Json
  error : Option String
  identifier_from_purchaser : String
  deriving Repr

/-- The three module-level dicts, plus the ghost log of downstream
dispatch calls made from the settlement callback path. -/
structure EngineState where
  jobs : List (String × Job)
  payment_instances : List String
  project_payments : List (String × Bool)
  dispatchLog : List String
  deriving Repr

/-- Insert-or-replace on a string-keyed association list (dict
assignment `d[k] = v`). -/
def upsert {α : Type} : List (String × α) → String → α → List (String × α)
  | [], k, v => [(k, v)]
  | (k0, v0) :: rest, k, v =>
      if k0 = k then (k, v) :: rest else (k0, v0) :: upsert rest k v

/-- `jobs[job_id] = f(jobs[job_id])`: mutate a stored job record.  A
no-op when the job is absent (Python would raise `KeyError`; see the
module comment). -/
def updateJob (s : EngineState) (jobId : String) (f : Job → Job) : EngineState :=
  match s.jobs.lookup jobId with
  | none => s
  | some j => { s with jobs := upsert s.jobs jobId (f j) }

/-- `if job_id in payment_instances: stop_status_monitoring(); del
payment_instances[job_id]` — release monitoring for a job.  Idempotent. -/
def releaseInstance (s : EngineState) (jobId : String) : EngineState :=
  { s with payment_instances := s.payment_instances.filter (fun k => k ≠ jobId) }

/-- Status of a stored job, if any. -/
def statusOf (s : EngineState) (jobId : String) : Option String :=
  (s.jobs.lookup jobId).map Job.status

/-- An HTTP-level failure as raised by the middleware
(`HTTPException(status_code, detail)`). -/
structure HTTPExn where
  status_code : Nat
  detail : String
  deriving Repr, DecidableEq

/-- `str(e)` for a `starlette` `HTTPException` is
`f"{status_code}: {detail}"`. -/
def HTTPExn.str (e : HTTPExn) : String :=
  toString e.status_code ++ ": " ++ e.detail

/-- Outcome of the I/O performed by one `call_express_api` invocation:
the downstream Express server answers, times out, returns a non-2xx
status, or the call fails some other way. -/
inductive ApiOutcome where
  | ok (result : Json)
  | timeout
  | httpError (code : Nat) (text : String)
  | otherError (msg : String)
  deriving Repr

/-- `call_express_api(endpoint, method, data)`: translates the raw
outcome into the result or the `HTTPException` the Python function
raises (timeout → 504, non-2xx → same code, unsupported method /
anything else → 500). -/
def call_express_api (method : String) (outcome : ApiOutcome) : Except HTTPExn Json :=
  if method = "POST" ∨ method = "GET" then
    match outcome with
    | .ok r => .ok r
    | .timeout => .error ⟨504, "Express server timeout"⟩
    | .httpError code text => .error ⟨code, "Express server error: " ++ text⟩
    | .otherError msg =>
        .error ⟨500, "Failed to communicate with Express server: " ++ msg⟩
  else
    .error ⟨500, "Failed to communicate with Express server: Unsupported HTTP method: "
              ++ method⟩

/-- `str(KeyError(k))` in Python: the missing key wrapped in quotes. -/
def keyErrorStr (k : String) : String := "'" ++ k ++ "'"

/-- The resource key used for the entitlement record on a successful
`create_project` job:
`payload["data"]["projectId"] if "projectId" in payload["data"] else
payload["data"].get("repoUrl", "").split("/")[-1]`. -/
def entitlementKey (d : PayloadData) : String :=
  match d.projectId with
  | some pid => pid
  | none => ((d.repoUrl.getD "").splitOn "/").getLastD ""

/-- Outcomes of the I/O performed by one invocation of the settlement
callback: the Express dispatch and the `complete_payment` report to the
payment network (the latter's error text is `str(e)` of whatever the
masumi client raised). -/
structure CallbackEnv where
  dispatch : ApiOutcome
  completePayment : Except String Unit
  deriving Repr

/-- The `except` handler of `process_payment_and_execute`: record the
failure on the job and release monitoring. -/
def callbackFail (s : EngineState) (jobId : String) (errMsg : String) : EngineState :=
  releaseInstance
    (updateJob s jobId (fun j => { j with status := "failed", error := some errMsg }))
    jobId

/-- First statement of the `try` block:
`jobs[job_id]["status"] = "running"`. -/
def markRunning (s : EngineState) (jobId : String) : EngineState :=
  updateJob s jobId (fun j => { j with status := "running" })

/-- Ghost step: record one `call_express_api` invocation from the
settlement callback path. -/
def logDispatch (s : EngineState) (endpoint : String) : EngineState :=
  { s with dispatchLog := s.dispatchLog ++ [endpoint] }

/-- `process_payment_and_execute(job_id, payment_id, action, payload)`,
the settlement callback.  Sets the job to `running`, dispatches the
stored action to the Express server (logged in `dispatchLog`), reports
completion to the payment network, marks the job `completed` with its
result, writes an entitlement record when the action is
`create_project`, and releases monitoring; any exception on that path
is caught and resolves the job to `failed` with the error recorded
(and monitoring released). -/
def process_payment_and_execute (env : CallbackEnv) (jobId : String)
    (_payment_id : String) (action : String) (payload : Payload)
    (s : EngineState) : EngineState :=
  let s1 := logDispatch (markRunning s jobId) payload.endpoint
  match call_express_api payload.method env.dispatch with
  | .error e => callbackFail s1 jobId e.str
  | .ok result =>
      if s1.payment_instances.contains jobId then
        match env.completePayment with
        | .error msg => callbackFail s1 jobId msg
        | .ok _ =>
            let s2 := updateJob s1 jobId (fun j =>
              { j with status := "completed",
                       payment_status := some "completed",
                       result := some result })
            let s3 :=
              if action = "create_project" then
                { s2 with project_payments :=
                    upsert s2.project_payments (entitlementKey payload.data) true }
              else s2
            releaseInstance s3 jobId
      else
        -- `payment_instances[job_id]` raises KeyError('job_id')
        callbackFail s1 jobId (keyErrorStr jobId)

/-- The payment-network data returned by
`payment.create_payment_request()["data"]`. -/
structure PaymentRequestData where
  blockchainIdentifier : String
  submitResultTime : String
  unlockTime : String
  externalDisputeUnlockTime : String
  deriving Repr

/-- Outcomes of the I/O performed by `create_payment_job`: creating the
payment request on the masumi network and starting status monitoring
(each either succeeds or raises, with `str(e)` carried as the error). -/
structure CreateEnv where
  createRequest : Except String PaymentRequestData
  startMonitoring : Except String Unit
  deriving Repr

/-- The success payload returned by `create_payment_job` (the fields a
caller needs to actually pay; config-derived fields are modelled as the
strings the environment would supply). -/
structure JobResponse where
  job_id : String
  blockchainIdentifier : String
  submitResultTime : String
  unlockTime : String
  externalDisputeUnlockTime : String
  identifierFromPurchaser : String
  amount : String
  deriving Repr

/-- `create_payment_job(identifier_from_purchaser, amount, action,
payload)`.  The fresh `str(uuid.uuid4())` is passed in as `jobId`.
Creates the payment request; on success stores the job in
`awaiting_payment`, registers the payment instance, and starts
monitoring.  Returns the state alongside the outcome: an exception
leaves behind exactly the mutations made before it was raised
(nothing for a `create_payment_request` failure; the stored job and
instance for a `start_status_monitoring` failure). -/
def create_payment_job (env : CreateEnv) (jobId : String)
    (identifier_from_purchaser : String) (amount : String) (action : String)
    (payload : Payload) (s : EngineState) :
    EngineState × Except String JobResponse :=
  match env.createRequest with
  | .error msg => (s, .error msg)
  | .ok pr =>
      let payment_id := pr.blockchainIdentifier
      let job : Job :=
        { status := "awaiting_payment",
          payment_status := some "pending",
          payment_id := payment_id,
          action := action,
          payload := payload,
          result := none,
          error := none,
          identifier_from_purchaser := identifier_from_purchaser }
      let s1 := { s with jobs := upsert s.jobs jobId job }
      let s2 := { s1 with payment_instances := s1.payment_instances ++ [jobId] }
      match env.startMonitoring with
      | .error msg => (s2, .error msg)
      | .ok _ =>
          (s2, .ok { job_id := jobId,
                     blockchainIdentifier := pr.blockchainIdentifier,
                     submitResultTime := pr.submitResultTime,
                     unlockTime := pr.unlockTime,
                     externalDisputeUnlockTime := pr.externalDisputeUnlockTime,
                     identifierFromPurchaser := identifier_from_purchaser,
                     amount := amount })

/-- The fee for the `create_project` action (`"5000000"  # 5 ADA`). -/
def create_project_amount : String := "5000000"

/-- The fee for the `interact` action (`"1000000"  # 1 ADA`). -/
def interact_amount : String := "1000000"

/-- The fee for the `analyze` action (`"2000000"  # 2 ADA`). -/
def analyze_amount : String := "2000000"

/-- Python `s.split("/")[-1]` (always defined: `split` never returns an
empty list). -/
def lastSlashSegment (str : String) : String :=
  (str.splitOn "/").getLastD ""

/-- The `/create_project` endpoint: derives a project id from the repo
URL plus a uuid-derived suffix (passed in as `uuidSuffix`), builds the
dispatch payload, and creates a 5 ADA gated job with action
`create_project`. -/
def create_project (env : CreateEnv) (jobId uuidSuffix : String)
    (identifier_from_purchaser repoUrl walletAddress side : String)
    (s : EngineState) : EngineState × Except String JobResponse :=
  let project_id := (lastSlashSegment repoUrl).replace ".git" "" ++ "-" ++ uuidSuffix
  let payload : Payload :=
    { endpoint := "/api/projects/create",
      method := "POST",
      data := { projectId := some project_id,
                repoUrl := some repoUrl,
                rest := [("walletAddress", .str walletAddress), ("side", .str side)] } }
  create_payment_job env jobId identifier_from_purchaser create_project_amount
    "create_project" payload s

/-- The `/interact` endpoint: builds the dispatch payload for the
project's interact route and creates a 1 ADA gated job with action
`interact`. -/
def interact (env : CreateEnv) (jobId : String)
    (identifier_from_purchaser projectId prompt : String)
    (s : EngineState) : EngineState × Except String JobResponse :=
  let payload : Payload :=
    { endpoint := "/api/projects/" ++ projectId ++ "/interact",
      method := "POST",
      data := { projectId := none, repoUrl := none,
                rest := [("prompt", .str prompt)] } }
  create_payment_job env jobId identifier_from_purchaser interact_amount
    "interact" payload s

/-- The `/setup_info` free operation: gate-check
`data.projectId not in project_payments` (membership in the dict — the
stored flag's value is not consulted), then a synchronous Express call
whose result is returned directly.  It touches none of the three
dicts, in particular it creates no payment instrument. -/
def setup_info (apiOutcome : ApiOutcome) (projectId : String)
    (_body : List (String × Json)) (s : EngineState) :
    Except HTTPExn Json :=
  if (s.project_payments.lookup projectId).isNone then
    .error ⟨402, "Project creation payment required first"⟩
  else
    match call_express_api "POST" apiOutcome with
    | .ok r => .ok (.obj [("status", .str "success"), ("result", r)])
    | .error e => .error e

/-- Outcome of the best-effort `check_payment_status()` poll in
`get_status`: the network answers with
`status.get("data", {}).get("status")` (possibly `None`) or raises. -/
inductive PollOutcome where
  | ok (status : Option String)
  | fail (msg : String)
  deriving Repr

/-- The view returned by `/status`. -/
structure StatusView where
  job_id : String
  status : String
  payment_status : Option String
  action : String
  result : Option Json
  deriving Repr

/-- The `/status` endpoint `get_status(job_id)`: 404 on an unknown job;
otherwise, when a payment instance is still associated, refresh
`payment_status` from a best-effort poll (a poll failure stores the
marker `"error"` instead of failing the query), then return the job
view. -/
def get_status (poll : PollOutcome) (jobId : String) (s : EngineState) :
    EngineState × Except HTTPExn StatusView :=
  match s.jobs.lookup jobId with
  | none => (s, .error ⟨404, "Job not found"⟩)
  | some _ =>
      let s1 :=
        if s.payment_instances.contains jobId then
          match poll with
          | .ok st => updateJob s jobId (fun j => { j with payment_status := st })
          | .fail _ => updateJob s jobId (fun j => { j with payment_status := some "error" })
        else s
      match s1.jobs.lookup jobId with
      | none => (s1, .error ⟨404, "Job not found"⟩)
      | some job =>
          (s1, .ok { job_id := jobId,
                     status := job.status,
                     payment_status := job.payment_status,
                     action := job.action,
                     result := job.result })

/-- One engine operation, with the outcomes of its external I/O fixed:
creating a gated job, the settlement callback firing for a job (the
callback closure's captured `action`/`payload` are the stored job's —
those fields are never mutated after creation), or a status query. -/
inductive EngineOp where
  | createJob (env : CreateEnv) (jobId identifier amount action : String) (payload : Payload)
  | settle (env : CallbackEnv) (jobId payment_id : String)
  | query (poll : PollOutcome) (jobId : String)

/-- Apply one operation to the state (ignoring the value returned to
the HTTP caller).  A `settle` for a job that was never stored has no
registered callback and is a no-op. -/
def runOp (s : EngineState) : EngineOp → EngineState
  | .createJob env jobId identifier amount action payload =>
      (create_payment_job env jobId identifier amount action payload s).1
  | .settle env jobId payment_id =>
      match s.jobs.lookup jobId with
      | none => s
      | some j => process_payment_and_execute env jobId payment_id j.action j.payload s
  | .query poll jobId => (get_status poll jobId s).1

/-- Apply a sequence of operations in order. -/
def runOps (s : EngineState) (ops : List EngineOp) : EngineState :=
  ops.foldl runOp s

/-- The empty initial state (`jobs = {}`, `payment_instances = {}`,
`project_payments = {}`). -/
def init : EngineState := ⟨[], [], [], []⟩

/-- The error recorded on a stored job, if any. -/
def errorOf (s : EngineState) (jobId : String) : Option String :=
  (s.jobs.lookup jobId).bind Job.error

/-- The result recorded on a stored job (outer `Option`: job present;
inner: result present). -/
def resultOf (s : EngineState) (jobId : String) : Option (Option Json) :=
  (s.jobs.lookup jobId).map Job.result

/-- The number of lovelace denoted by a decimal amount string such as
`"5000000"` (the reading the payment network gives the `Amount`
strings the middleware passes it). -/
def decimalValue (s : String) : Nat :=
  s.data.foldl (fun n c => n * 10 + (c.toNat - '0'.toNat)) 0

/-- All stored entitlement flags are `true` (what the engine in fact
writes: `project_payments[project_id] = True` is its only write). -/
def allFlagsTrue (l : List (String × Bool)) : Prop :=
  ∀ p ∈ l, p.2 = true

/-! ### Concrete scenario used by counterexamples and witnesses

A `create_project` job `"j1"` whose payload carries
`projectId = "pX"`, created successfully, then settled with a
downstream result `{"projectId": "p1"}` — and settled once more, as a
duplicate notification would. -/

/-- Payment-network data for a successful `create_payment_request`. -/
def prOK : PaymentRequestData :=
  { blockchainIdentifier := "pay1", submitResultTime := "t1",
    unlockTime := "t2", externalDisputeUnlockTime := "t3" }

/-- Creation environment: both network calls succeed. -/
def envCreateOK : CreateEnv := ⟨.ok prOK, .ok ()⟩

/-- Creation environment: the payment request succeeds but
`start_status_monitoring` raises. -/
def envMonFail : CreateEnv := ⟨.ok prOK, .error "monitor boom"⟩

/-- Creation environment: `create_payment_request` raises. -/
def envCreateFail : CreateEnv := ⟨.error "network down", .ok ()⟩

/-- A `create_project` dispatch payload whose data carries
`projectId = "pX"`. -/
def payloadPX : Payload :=
  { endpoint := "/api/projects/create", method := "POST",
    data := { projectId := some "pX", repoUrl := some "https://github.com/a/x",
              rest := [] } }

/-- Callback environment: the dispatch succeeds with
`{"projectId": "p1"}` and `complete_payment` succeeds. -/
def cbOK : CallbackEnv := ⟨.ok (.obj [("projectId", .str "p1")]), .ok ()⟩

/-- Callback environment: the dispatch times out. -/
def cbTimeout : CallbackEnv := ⟨.timeout, .ok ()⟩

/-- Callback environment: the dispatch succeeds but `complete_payment`
raises. -/
def cbCompleteFail : CallbackEnv := ⟨.ok (.obj [("projectId", .str "p1")]), .error "masumi down"⟩

/-- State after creating job `"j1"`. -/
def dupS1 : EngineState :=
  runOp init (.createJob envCreateOK "j1" "buyer" create_project_amount
    "create_project" payloadPX)

/-- State after the first settlement notification for `"j1"`. -/
def dupS2 : EngineState := runOp dupS1 (.settle cbOK "j1" "pay1")

/-- State after a duplicate settlement notification for `"j1"`. -/
def dupS3 : EngineState := runOp dupS2 (.settle cbOK "j1" "pay1")

/-- The job record stored for `"j1"` right after creation. -/
def dupJob1 : Job :=
  { status := "awaiting_payment", payment_status := some "pending",
    payment_id := "pay1", action := "create_project", payload := payloadPX,
    result := none, error := none, identifier_from_purchaser := "buyer" }

/-- The job record stored for `"j1"` after the first settlement resolved
it. -/
def dupJob2 : Job :=
  { status := "completed", payment_status := some "completed",
    payment_id := "pay1", action := "create_project", payload := payloadPX,
    result := some (.obj [("projectId", .str "p1")]), error := none,
    identifier_from_purchaser := "buyer" }

/-- State left behind when `start_status_monitoring` raises after the
job record was stored: the job sits in `awaiting_payment` forever. -/
def stuckS : EngineState :=
  (create_payment_job envMonFail "j1" "buyer" create_project_amount
    "create_project" payloadPX init).1

/-! ### Association-list lemmas -/

theorem lookup_upsert {α : Type} (l : List (String × α)) (k : String) (v : α) :
    (upsert l k v).lookup k = some v := by
  induction l with
  | nil => simp [upsert]
  | cons hd tl ih =>
    obtain ⟨k0, v0⟩ := hd
    by_cases h : k0 = k
    · simp [upsert, h]
    · have hb : (k == k0) = false := beq_eq_false_iff_ne.mpr (Ne.symm h)
      simp [upsert, h, List.lookup, hb, ih]

theorem lookup_upsert_ne {α : Type} (l : List (String × α)) (k k' : String) (v : α)
    (hne : k' ≠ k) : (upsert l k v).lookup k' = l.lookup k' := by
  have hb : (k' == k) = false := beq_eq_false_iff_ne.mpr hne
  induction l with
  | nil => simp [upsert, List.lookup, hb]
  | cons hd tl ih =>
    obtain ⟨k0, v0⟩ := hd
    by_cases h : k0 = k
    · subst h
      simp [upsert, List.lookup, hb]
    · simp [upsert, h, List.lookup, ih]

theorem lookup_mem {α : Type} {l : List (String × α)} {k : String} {v : α}
    (h : l.lookup k = some v) : (k, v) ∈ l := by
  induction l with
  | nil => simp [List.lookup] at h
  | cons hd tl ih =>
    obtain ⟨k0, v0⟩ := hd
    by_cases hk : k = k0
    · subst hk
      simp [List.lookup] at h
      simp [h]
    · have hb : (k == k0) = false := beq_eq_false_iff_ne.mpr hk
      simp [List.lookup, hb] at h
      exact List.mem_cons_of_mem _ (ih h)

theorem allFlagsTrue_upsert {l : List (String × Bool)} (h : allFlagsTrue l) (k : String) :
    allFlagsTrue (upsert l k true) := by
  induction l with
  | nil => intro p hp; simp [upsert] at hp; simp [hp]
  | cons hd tl ih =>
    obtain ⟨k0, v0⟩ := hd
    have htl : allFlagsTrue tl := fun p hp => h p (List.mem_cons_of_mem _ hp)
    by_cases hk : k0 = k
    · intro p hp
      simp [upsert, hk] at hp
      rcases hp with hp | hp
      · simp [hp]
      · exact h p (List.mem_cons_of_mem _ hp)
    · intro p hp
      simp only [upsert, if_neg hk, List.mem_cons] at hp
      rcases hp with hp | hp
      · exact h p (hp ▸ List.mem_cons_self _ _)
      · exact ih htl p hp

theorem contains_filter_ne (l : List String) (k : String) :
    (l.filter (fun x => x ≠ k)).contains k = false := by
  induction l with
  | nil => simp
  | cons hd tl ih =>
    by_cases h : hd = k
    · have hdec : (decide (hd ≠ k)) = false := by simp [h]
      simp only [List.filter, hdec]
      exact ih
    · have hdec : (decide (hd ≠ k)) = true := by simp [h]
      have hb : (k == hd) = false := beq_eq_false_iff_ne.mpr (Ne.symm h)
      simp only [List.filter, hdec]
      simp only [List.contains, List.elem, hb]
      exact ih

/-! ### Component-preservation lemmas for the state operations -/

theorem updateJob_payment_instances (s : EngineState) (jobId : String) (f : Job → Job) :
    (updateJob s jobId f).payment_instances = s.payment_instances := by
  unfold updateJob
  cases s.jobs.lookup jobId <;> rfl

theorem updateJob_project_payments (s : EngineState) (jobId : String) (f : Job → Job) :
    (updateJob s jobId f).project_payments = s.project_payments := by
  unfold updateJob
  cases s.jobs.lookup jobId <;> rfl

theorem updateJob_dispatchLog (s : EngineState) (jobId : String) (f : Job → Job) :
    (updateJob s jobId f).dispatchLog = s.dispatchLog := by
  unfold updateJob
  cases s.jobs.lookup jobId <;> rfl

theorem updateJob_lookup_self {s : EngineState} {jobId : String} {job : Job}
    (hjob : s.jobs.lookup jobId = some job) (f : Job → Job) :
    (updateJob s jobId f).jobs.lookup jobId = some (f job) := by
  unfold updateJob
  rw [hjob]
  exact lookup_upsert _ _ _

theorem updateJob_lookup_ne {s : EngineState} {jobId jobId' : String}
    (hne : jobId' ≠ jobId) (f : Job → Job) :
    (updateJob s jobId f).jobs.lookup jobId' = s.jobs.lookup jobId' := by
  unfold updateJob
  cases hl : s.jobs.lookup jobId with
  | none => rfl
  | some j => exact lookup_upsert_ne _ _ _ _ hne

theorem releaseInstance_jobs (s : EngineState) (jobId : String) :
    (releaseInstance s jobId).jobs = s.jobs := rfl

theorem releaseInstance_project_payments (s : EngineState) (jobId : String) :
    (releaseInstance s jobId).project_payments = s.project_payments := rfl

theorem releaseInstance_dispatchLog (s : EngineState) (jobId : String) :
    (releaseInstance s jobId).dispatchLog = s.dispatchLog := rfl

theorem releaseInstance_not_contains (s : EngineState) (jobId : String) :
    (releaseInstance s jobId).payment_instances.contains jobId = false :=
  contains_filter_ne _ _

theorem markRunning_lookup {s : EngineState} {jobId : String} {job : Job}
    (hjob : s.jobs.lookup jobId = some job) :
    (markRunning s jobId).jobs.lookup jobId = some { job with status := "running" } :=
  updateJob_lookup_self hjob _

theorem logDispatch_jobs (s : EngineState) (e : String) :
    (logDispatch s e).jobs = s.jobs := rfl

theorem logDispatch_payment_instances (s : EngineState) (e : String) :
    (logDispatch s e).payment_instances = s.payment_instances := rfl

theorem logDispatch_project_payments (s : EngineState) (e : String) :
    (logDispatch s e).project_payments = s.project_payments := rfl

/-! ### Lemmas about the except-handler `callbackFail` -/

theorem callbackFail_lookup {s : EngineState} {jobId : String} {job : Job}
    (hjob : s.jobs.lookup jobId = some job) (m : String) :
    (callbackFail s jobId m).jobs.lookup jobId
      = some { job with status := "failed", error := some m } := by
  unfold callbackFail
  rw [releaseInstance_jobs]
  exact updateJob_lookup_self hjob _

theorem callbackFail_statusOf {s : EngineState} {jobId : String} {job : Job}
    (hjob : s.jobs.lookup jobId = some job) (m : String) :
    statusOf (callbackFail s jobId m) jobId = some "failed" := by
  unfold statusOf
  rw [callbackFail_lookup hjob]
  rfl

theorem callbackFail_errorOf {s : EngineState} {jobId : String} {job : Job}
    (hjob : s.jobs.lookup jobId = some job) (m : String) :
    errorOf (callbackFail s jobId m) jobId = some m := by
  unfold errorOf
  rw [callbackFail_lookup hjob]
  rfl

theorem callbackFail_resultOf {s : EngineState} {jobId : String} {job : Job}
    (hjob : s.jobs.lookup jobId = some job) (m : String) :
    resultOf (callbackFail s jobId m) jobId = some job.result := by
  unfold resultOf
  rw [callbackFail_lookup hjob]
  rfl

theorem callbackFail_not_contains (s : EngineState) (jobId m : String) :
    (callbackFail s jobId m).payment_instances.contains jobId = false :=
  contains_filter_ne _ _

theorem callbackFail_project_payments (s : EngineState) (jobId m : String) :
    (callbackFail s jobId m).project_payments = s.project_payments := by
  unfold callbackFail
  rw [releaseInstance_project_payments, updateJob_project_payments]

theorem callbackFail_dispatchLog (s : EngineState) (jobId m : String) :
    (callbackFail s jobId m).dispatchLog = s.dispatchLog := by
  unfold callbackFail
  rw [releaseInstance_dispatchLog, updateJob_dispatchLog]

theorem markRunning_payment_instances (s : EngineState) (jobId : String) :
    (markRunning s jobId).payment_instances = s.payment_instances :=
  updateJob_payment_instances s jobId _

/-! ### Case equations for `process_payment_and_execute`

The callback has exactly four outcomes, matching the Python control
flow: the dispatch raises; the dispatch succeeds but the
`payment_instances[job_id]` lookup raises `KeyError` (duplicate
notification after the first resolution removed the instance);
`complete_payment` raises; everything succeeds. -/

theorem ppae_eq_dispatch_error (env : CallbackEnv) (jobId pid action : String)
    (payload : Payload) (s : EngineState) (e : HTTPExn)
    (h : call_express_api payload.method env.dispatch = .error e) :
    process_payment_and_execute env jobId pid action payload s
      = callbackFail (logDispatch (markRunning s jobId) payload.endpoint) jobId e.str := by
  unfold process_payment_and_execute
  rw [h]

theorem ppae_eq_keyerror (env : CallbackEnv) (jobId pid action : String)
    (payload : Payload) (s : EngineState) (r : Json)
    (h : call_express_api payload.method env.dispatch = .ok r)
    (hc : s.payment_instances.contains jobId = false) :
    process_payment_and_execute env jobId pid action payload s
      = callbackFail (logDispatch (markRunning s jobId) payload.endpoint) jobId
          (keyErrorStr jobId) := by
  unfold process_payment_and_execute
  rw [h]
  have hc' : (logDispatch (markRunning s jobId) payload.endpoint).payment_instances.contains jobId = false := by
    rw [logDispatch_payment_instances, markRunning_payment_instances]
    exact hc
  simp only [hc', Bool.false_eq_true, if_false]

theorem ppae_eq_complete_error (env : CallbackEnv) (jobId pid action : String)
    (payload : Payload) (s : EngineState) (r : Json) (msg : String)
    (h : call_express_api payload.method env.dispatch = .ok r)
    (hc : s.payment_instances.contains jobId = true)
    (hcomp : env.completePayment = .error msg) :
    process_payment_and_execute env jobId pid action payload s
      = callbackFail (logDispatch (markRunning s jobId) payload.endpoint) jobId msg := by
  unfold process_payment_and_execute
  rw [h]
  have hc' : (logDispatch (markRunning s jobId) payload.endpoint).payment_instances.contains jobId = true := by
    rw [logDispatch_payment_instances, markRunning_payment_instances]
    exact hc
  simp only [hc', if_true]
  rw [hcomp]

theorem ppae_eq_success (env : CallbackEnv) (jobId pid action : String)
    (payload : Payload) (s : EngineState) (r : Json)
    (h : call_express_api payload.method env.dispatch = .ok r)
    (hc : s.payment_instances.contains jobId = true)
    (hcomp : env.completePayment = .ok ()) :
    process_payment_and_execute env jobId pid action payload s
      = releaseInstance
          (let s2 := updateJob (logDispatch (markRunning s jobId) payload.endpoint) jobId
            (fun j => { j with status := "completed",
                               payment_status := some "completed",
                               result := some r })
           if action = "create_project" then
             { s2 with project_payments :=
                 upsert s2.project_payments (entitlementKey payload.data) true }
           else s2)
          jobId := by
  unfold process_payment_and_execute
  rw [h]
  have hc' : (logDispatch (markRunning s jobId) payload.endpoint).payment_instances.contains jobId = true := by
    rw [logDispatch_payment_instances, markRunning_payment_instances]
    exact hc
  simp only [hc', if_true]
  rw [hcomp]

theorem ifEntitle_jobs (s2 : EngineState) (P : Prop) [Decidable P] (k : String) :
    (if P then { s2 with project_payments := upsert s2.project_payments k true }
     else s2).jobs = s2.jobs := by
  split <;> rfl

theorem ifEntitle_dispatchLog (s2 : EngineState) (P : Prop) [Decidable P] (k : String) :
    (if P then { s2 with project_payments := upsert s2.project_payments k true }
     else s2).dispatchLog = s2.dispatchLog := by
  split <;> rfl

theorem s1_lookup {s : EngineState} {jobId : String} {job : Job}
    (hjob : s.jobs.lookup jobId = some job) (e : String) :
    (logDispatch (markRunning s jobId) e).jobs.lookup jobId
      = some { job with status := "running" } := by
  rw [logDispatch_jobs]
  exact markRunning_lookup hjob

theorem ppae_dispatchLog (env : CallbackEnv) (jobId pid action : String)
    (payload : Payload) (s : EngineState) :
    (process_payment_and_execute env jobId pid action payload s).dispatchLog
      = s.dispatchLog ++ [payload.endpoint] := by
  have hlog : (logDispatch (markRunning s jobId) payload.endpoint).dispatchLog
      = s.dispatchLog ++ [payload.endpoint] := by
    show (markRunning s jobId).dispatchLog ++ [payload.endpoint]
      = s.dispatchLog ++ [payload.endpoint]
    rw [markRunning, updateJob_dispatchLog]
  cases hcall : call_express_api payload.method env.dispatch with
  | error e =>
    rw [ppae_eq_dispatch_error env jobId pid action payload s e hcall]
    rw [callbackFail_dispatchLog, hlog]
  | ok r =>
    cases hc : s.payment_instances.contains jobId with
    | false =>
      rw [ppae_eq_keyerror env jobId pid action payload s r hcall hc]
      rw [callbackFail_dispatchLog, hlog]
    | true =>
      cases hcomp : env.completePayment with
      | error msg =>
        rw [ppae_eq_complete_error env jobId pid action payload s r msg hcall hc hcomp]
        rw [callbackFail_dispatchLog, hlog]
      | ok u =>
        cases u
        rw [ppae_eq_success env jobId pid action payload s r hcall hc hcomp]
        rw [releaseInstance_dispatchLog]
        rw [ifEntitle_dispatchLog]
        rw [updateJob_dispatchLog, hlog]

theorem ppae_terminal (env : CallbackEnv) (jobId pid action : String)
    (payload : Payload) (s : EngineState) (job : Job)
    (hjob : s.jobs.lookup jobId = some job) :
    statusOf (process_payment_and_execute env jobId pid action payload s) jobId
        = some "completed" ∨
      (statusOf (process_payment_and_execute env jobId pid action payload s) jobId
        = some "failed" ∧
       ∃ msg, errorOf (process_payment_and_execute env jobId pid action payload s) jobId
        = some msg) := by
  have h1 := s1_lookup hjob payload.endpoint
  cases hcall : call_express_api payload.method env.dispatch with
  | error e =>
    rw [ppae_eq_dispatch_error env jobId pid action payload s e hcall]
    exact Or.inr ⟨callbackFail_statusOf h1 _, _, callbackFail_errorOf h1 _⟩
  | ok r =>
    cases hc : s.payment_instances.contains jobId with
    | false =>
      rw [ppae_eq_keyerror env jobId pid action payload s r hcall hc]
      exact Or.inr ⟨callbackFail_statusOf h1 _, _, callbackFail_errorOf h1 _⟩
    | true =>
      cases hcomp : env.completePayment with
      | error msg =>
        rw [ppae_eq_complete_error env jobId pid action payload s r msg hcall hc hcomp]
        exact Or.inr ⟨callbackFail_statusOf h1 _, _, callbackFail_errorOf h1 _⟩
      | ok u =>
        cases u
        rw [ppae_eq_success env jobId pid action payload s r hcall hc hcomp]
        left
        unfold statusOf
        rw [releaseInstance_jobs]
        rw [ifEntitle_jobs]
        rw [updateJob_lookup_self h1]
        rfl

theorem ifEntitle_payment_instances (s2 : EngineState) (P : Prop) [Decidable P] (k : String) :
    (if P then { s2 with project_payments := upsert s2.project_payments k true }
     else s2).payment_instances = s2.payment_instances := by
  split <;> rfl

theorem ppae_success_facts (env : CallbackEnv) (jobId pid action : String)
    (payload : Payload) (s : EngineState) (job : Job) (r : Json)
    (hjob : s.jobs.lookup jobId = some job)
    (h : call_express_api payload.method env.dispatch = .ok r)
    (hc : s.payment_instances.contains jobId = true)
    (hcomp : env.completePayment = .ok ()) :
    statusOf (process_payment_and_execute env jobId pid action payload s) jobId
      = some "completed" ∧
    resultOf (process_payment_and_execute env jobId pid action payload s) jobId
      = some (some r) ∧
    (process_payment_and_execute env jobId pid action payload s).payment_instances.contains jobId
      = false ∧
    (process_payment_and_execute env jobId pid action payload s).project_payments
      = (if action = "create_project" then
           upsert s.project_payments (entitlementKey payload.data) true
         else s.project_payments) := by
  have h1 := s1_lookup hjob payload.endpoint
  rw [ppae_eq_success env jobId pid action payload s r h hc hcomp]
  refine ⟨?_, ?_, ?_, ?_⟩
  · unfold statusOf
    rw [releaseInstance_jobs, ifEntitle_jobs, updateJob_lookup_self h1]
    rfl
  · unfold resultOf
    rw [releaseInstance_jobs, ifEntitle_jobs, updateJob_lookup_self h1]
    rfl
  · exact releaseInstance_not_contains _ _
  · rw [releaseInstance_project_payments]
    have hpp : (updateJob (logDispatch (markRunning s jobId) payload.endpoint) jobId
            (fun j => { j with status := "completed",
                               payment_status := some "completed",
                               result := some r })).project_payments
        = s.project_payments := by
      rw [updateJob_project_payments, logDispatch_project_payments, markRunning,
        updateJob_project_payments]
    by_cases ha : action = "create_project"
    · simp only [ha, if_true, hpp]
    · simp only [ha, if_false, hpp]

theorem s1_lookup_ne {s : EngineState} {jobId j' : String} (hne : j' ≠ jobId) (e : String) :
    (logDispatch (markRunning s jobId) e).jobs.lookup j' = s.jobs.lookup j' := by
  rw [logDispatch_jobs, markRunning]
  exact updateJob_lookup_ne hne _

theorem callbackFail_lookup_ne {s : EngineState} {jobId j' : String}
    (hne : j' ≠ jobId) (m : String) :
    (callbackFail s jobId m).jobs.lookup j' = s.jobs.lookup j' := by
  unfold callbackFail
  rw [releaseInstance_jobs]
  exact updateJob_lookup_ne hne _

theorem ppae_lookup_ne (env : CallbackEnv) (jobId pid action : String)
    (payload : Payload) (s : EngineState) {j' : String} (hne : j' ≠ jobId) :
    (process_payment_and_execute env jobId pid action payload s).jobs.lookup j'
      = s.jobs.lookup j' := by
  cases hcall : call_express_api payload.method env.dispatch with
  | error e =>
    rw [ppae_eq_dispatch_error env jobId pid action payload s e hcall,
      callbackFail_lookup_ne hne, s1_lookup_ne hne]
  | ok r =>
    cases hc : s.payment_instances.contains jobId with
    | false =>
      rw [ppae_eq_keyerror env jobId pid action payload s r hcall hc,
        callbackFail_lookup_ne hne, s1_lookup_ne hne]
    | true =>
      cases hcomp : env.completePayment with
      | error msg =>
        rw [ppae_eq_complete_error env jobId pid action payload s r msg hcall hc hcomp,
          callbackFail_lookup_ne hne, s1_lookup_ne hne]
      | ok u =>
        cases u
        rw [ppae_eq_success env jobId pid action payload s r hcall hc hcomp,
          releaseInstance_jobs, ifEntitle_jobs, updateJob_lookup_ne hne,
          s1_lookup_ne hne]

theorem ppae_project_payments (env : CallbackEnv) (jobId pid action : String)
    (payload : Payload) (s : EngineState) :
    (process_payment_and_execute env jobId pid action payload s).project_payments
        = s.project_payments ∨
    (process_payment_and_execute env jobId pid action payload s).project_payments
        = upsert s.project_payments (entitlementKey payload.data) true := by
  cases hcall : call_express_api payload.method env.dispatch with
  | error e =>
    left
    rw [ppae_eq_dispatch_error env jobId pid action payload s e hcall,
      callbackFail_project_payments, logDispatch_project_payments, markRunning,
      updateJob_project_payments]
  | ok r =>
    cases hc : s.payment_instances.contains jobId with
    | false =>
      left
      rw [ppae_eq_keyerror env jobId pid action payload s r hcall hc,
        callbackFail_project_payments, logDispatch_project_payments, markRunning,
        updateJob_project_payments]
    | true =>
      cases hcomp : env.completePayment with
      | error msg =>
        left
        rw [ppae_eq_complete_error env jobId pid action payload s r msg hcall hc hcomp,
          callbackFail_project_payments, logDispatch_project_payments, markRunning,
          updateJob_project_payments]
      | ok u =>
        cases u
        rw [ppae_eq_success env jobId pid action payload s r hcall hc hcomp,
          releaseInstance_project_payments]
        have hpp : (updateJob (logDispatch (markRunning s jobId) payload.endpoint) jobId
                (fun j => { j with status := "completed",
                                   payment_status := some "completed",
                                   result := some r })).project_payments
            = s.project_payments := by
          rw [updateJob_project_payments, logDispatch_project_payments, markRunning,
            updateJob_project_payments]
        by_cases ha : action = "create_project"
        · right
          simp only [ha, if_true, hpp]
        · left
          simp only [ha, if_false, hpp]

theorem cpj_project_payments (env : CreateEnv) (jobId idf amount action : String)
    (payload : Payload) (s : EngineState) :
    (create_payment_job env jobId idf amount action payload s).1.project_payments
      = s.project_payments := by
  unfold create_payment_job
  cases env.createRequest with
  | error msg => rfl
  | ok pr => cases env.startMonitoring <;> rfl

theorem get_status_project_payments (poll : PollOutcome) (jobId : String) (s : EngineState) :
    (get_status poll jobId s).1.project_payments = s.project_payments := by
  unfold get_status
  cases hl : s.jobs.lookup jobId with
  | none => rfl
  | some j =>
    cases hc : s.payment_instances.contains jobId with
    | false =>
      simp only [hc, Bool.false_eq_true, if_false]
      rw [hl]
    | true =>
      simp only [hc, if_true]
      cases poll with
      | ok st =>
        cases h2 : (updateJob s jobId fun j => { j with payment_status := st }).jobs.lookup jobId <;>
          simp only [updateJob_project_payments]
      | fail m =>
        cases h2 : (updateJob s jobId fun j => { j with payment_status := some "error" }).jobs.lookup jobId <;>
          simp only [updateJob_project_payments]

theorem runOp_allFlags {s : EngineState} (op : EngineOp)
    (h : allFlagsTrue s.project_payments) : allFlagsTrue (runOp s op).project_payments := by
  cases op with
  | createJob env jobId idf amount action payload =>
    rw [runOp, cpj_project_payments]
    exact h
  | settle env jobId pid =>
    rw [runOp]
    cases hl : s.jobs.lookup jobId with
    | none => exact h
    | some j =>
      rcases ppae_project_payments env jobId pid j.action j.payload s with hp | hp
      · rw [hp]; exact h
      · rw [hp]; exact allFlagsTrue_upsert h _
  | query poll jobId =>
    rw [runOp, get_status_project_payments]
    exact h

theorem runOps_allFlags (ops : List EngineOp) :
    allFlagsTrue (runOps init ops).project_payments := by
  suffices h : ∀ s, allFlagsTrue s.project_payments →
      allFlagsTrue (runOps s ops).project_payments by
    refine h init ?_
    intro p hp
    simp [init] at hp
  induction ops with
  | nil => intro s h; exact h
  | cons op rest ih =>
    intro s h
    exact ih _ (runOp_allFlags op h)

theorem statusOf_updateJob_keep {s : EngineState} {jobId : String} {f : Job → Job}
    (hf : ∀ j, (f j).status = j.status) (j' : String) :
    statusOf (updateJob s jobId f) j' = statusOf s j' := by
  by_cases hne : j' = jobId
  · subst hne
    cases hl : s.jobs.lookup j' with
    | none =>
      have hid : updateJob s j' f = s := by
        unfold updateJob
        rw [hl]
      rw [hid]
    | some job =>
      unfold statusOf
      rw [updateJob_lookup_self hl]
      simp [hf job, hl]
  · unfold statusOf
    rw [updateJob_lookup_ne hne]

theorem get_status_fst (poll : PollOutcome) (qid : String) (s : EngineState) :
    (get_status poll qid s).1 = s ∨
    ∃ st : Option String, (get_status poll qid s).1
        = updateJob s qid (fun j => { j with payment_status := st }) := by
  unfold get_status
  cases hl : s.jobs.lookup qid with
  | none => left; rfl
  | some j =>
    cases hc : s.payment_instances.contains qid with
    | false =>
      left
      simp only [hc, Bool.false_eq_true, if_false]
      rw [hl]
    | true =>
      simp only [hc, if_true]
      cases poll with
      | ok st =>
        right
        refine ⟨st, ?_⟩
        cases h2 : (updateJob s qid fun j => { j with payment_status := st }).jobs.lookup qid <;> rfl
      | fail m =>
        right
        refine ⟨some "error", ?_⟩
        cases h2 : (updateJob s qid fun j => { j with payment_status := some "error" }).jobs.lookup qid <;> rfl

theorem get_status_statusOf (poll : PollOutcome) (qid : String) (s : EngineState)
    (j' : String) : statusOf (get_status poll qid s).1 j' = statusOf s j' := by
  rcases get_status_fst poll qid s with h | ⟨st, h⟩
  · rw [h]
  · rw [h]
    exact @statusOf_updateJob_keep s qid (fun j => { j with payment_status := st })
      (fun _ => rfl) j'

theorem cpj_lookup_ne (env : CreateEnv) (jobId idf amount action : String)
    (payload : Payload) (s : EngineState) {j' : String} (hne : j' ≠ jobId) :
    (create_payment_job env jobId idf amount action payload s).1.jobs.lookup j'
      = s.jobs.lookup j' := by
  unfold create_payment_job
  cases env.createRequest with
  | error msg => rfl
  | ok pr =>
    cases env.startMonitoring with
    | error m => exact lookup_upsert_ne _ _ _ _ hne
    | ok u => exact lookup_upsert_ne _ _ _ _ hne

theorem express_timeout_ne_gate :
    "Express server timeout" ≠ "Project creation payment required first" := by
  decide

theorem express_error_ne_gate (t : String) :
    "Express server error: " ++ t ≠ "Project creation payment required first" := by
  intro h
  have h2 := congrArg String.data h
  rw [String.data_append "Express server error: " t] at h2
  have h3 : "Express server error: ".data = 'E' :: "xpress server error: ".data := rfl
  rw [h3] at h2
  have h4 : "Project creation payment required first".data
      = 'P' :: "roject creation payment required first".data := rfl
  rw [h4] at h2
  simp at h2

theorem comm_fail_ne_gate (t : String) :
    "Failed to communicate with Express server: " ++ t
      ≠ "Project creation payment required first" := by
  intro h
  have h2 := congrArg String.data h
  rw [String.data_append "Failed to communicate with Express server: " t] at h2
  have h3 : "Failed to communicate with Express server: ".data
      = 'F' :: "ailed to communicate with Express server: ".data := rfl
  rw [h3] at h2
  have h4 : "Project creation payment required first".data
      = 'P' :: "roject creation payment required first".data := rfl
  rw [h4] at h2
  simp at h2

theorem httpExn_str_ne_empty (e : HTTPExn) : e.str ≠ "" := by
  intro h
  have h2 := congrArg String.data h
  unfold HTTPExn.str at h2
  rw [String.data_append, String.data_append] at h2
  have h3 : ": ".data = ':' :: ' ' :: [] := rfl
  rw [h3] at h2
  simp at h2

theorem keyErrorStr_ne_empty (k : String) : keyErrorStr k ≠ "" := by
  intro h
  have h2 := congrArg String.data h
  unfold keyErrorStr at h2
  rw [String.data_append, String.data_append] at h2
  have h3 : "'".data = '\'' :: [] := rfl
  rw [h3] at h2
  simp at h2

theorem setup_info_gate_closed (out : ApiOutcome) (pid : String)
    (body : List (String × Json)) (s : EngineState)
    (h : s.project_payments.lookup pid = none) :
    setup_info out pid body s
      = .error ⟨402, "Project creation payment required first"⟩ := by
  unfold setup_info
  rw [h]
  rfl

theorem setup_info_gate_open (out : ApiOutcome) (pid : String)
    (body : List (String × Json)) (s : EngineState) {v : Bool}
    (h : s.project_payments.lookup pid = some v) :
    setup_info out pid body s
      ≠ .error ⟨402, "Project creation payment required first"⟩ := by
  unfold setup_info
  rw [h]
  simp only [Option.isNone_some, Bool.false_eq_true, if_false]
  unfold call_express_api
  have hm : ("POST" = "POST" ∨ "POST" = "GET") := Or.inl rfl
  rw [if_pos hm]
  cases out with
  | ok r => intro hcontra; exact Except.noConfusion hcontra
  | timeout =>
    intro hcontra
    have := Except.error.inj hcontra
    have h504 : (504 : Nat) = 402 := congrArg HTTPExn.status_code this
    omega
  | httpError code text =>
    intro hcontra
    have := Except.error.inj hcontra
    exact express_error_ne_gate text (congrArg HTTPExn.detail this)
  | otherError m =>
    intro hcontra
    have := Except.error.inj hcontra
    exact comm_fail_ne_gate m (congrArg HTTPExn.detail this)

theorem setup_info_gate_open_ok (r : Json) (pid : String)
    (body : List (String × Json)) (s : EngineState) {v : Bool}
    (h : s.project_payments.lookup pid = some v) :
    setup_info (.ok r) pid body s
      = .ok (.obj [("status", .str "success"), ("result", r)]) := by
  unfold setup_info
  rw [h]
  rfl

theorem get_status_eq_notfound (poll : PollOutcome) (qid : String) (s : EngineState)
    (h : s.jobs.lookup qid = none) :
    get_status poll qid s = (s, .error ⟨404, "Job not found"⟩) := by
  unfold get_status
  rw [h]

theorem get_status_eq_noinstance (poll : PollOutcome) (qid : String) (s : EngineState)
    (job : Job) (hjob : s.jobs.lookup qid = some job)
    (hc : s.payment_instances.contains qid = false) :
    get_status poll qid s
      = (s, .ok { job_id := qid, status := job.status,
                  payment_status := job.payment_status, action := job.action,
                  result := job.result }) := by
  unfold get_status
  rw [hjob]
  simp only [hc, Bool.false_eq_true, if_false]
  rw [hjob]

theorem get_status_eq_poll_ok (st : Option String) (qid : String) (s : EngineState)
    (job : Job) (hjob : s.jobs.lookup qid = some job)
    (hc : s.payment_instances.contains qid = true) :
    get_status (.ok st) qid s
      = (updateJob s qid (fun j => { j with payment_status := st }),
         .ok { job_id := qid, status := job.status, payment_status := st,
               action := job.action, result := job.result }) := by
  unfold get_status
  rw [hjob]
  simp only [hc, if_true]
  rw [updateJob_lookup_self hjob]

theorem get_status_eq_poll_fail (m : String) (qid : String) (s : EngineState)
    (job : Job) (hjob : s.jobs.lookup qid = some job)
    (hc : s.payment_instances.contains qid = true) :
    get_status (.fail m) qid s
      = (updateJob s qid (fun j => { j with payment_status := some "error" }),
         .ok { job_id := qid, status := job.status, payment_status := some "error",
               action := job.action, result := job.result }) := by
  unfold get_status
  rw [hjob]
  simp only [hc, if_true]
  rw [updateJob_lookup_self hjob]

/-- C7: if creating the payment instrument fails during job creation
(before any job record is stored), the call aborts with that error and
the state — job store, payment instances, entitlements, dispatch log —
is exactly what it was: no partial record of any kind is left behind. -/
theorem C7_instrument_failure_aborts (env : CreateEnv) (jobId idf amount action : String)
    (payload : Payload) (s : EngineState) (msg : String)
    (h : env.createRequest = .error msg) :
    create_payment_job env jobId idf amount action payload s = (s, .error msg) := by
  unfold create_payment_job
  rw [h]

/-- Witness for C7 at a concrete failing creation environment. -/
theorem C7_witness :
    create_payment_job envCreateFail "j9" "buyer" create_project_amount
        "create_project" payloadPX init = (init, .error "network down") :=
  C7_instrument_failure_aborts envCreateFail "j9" "buyer" create_project_amount
    "create_project" payloadPX init "network down" rfl

/-- C8: `get_status` signals 404 on an unknown job id; on a known job it
returns a view carrying the job id, status, payment status, action and
result; when a payment instance is still associated it refreshes
`payment_status` from the poll, and a poll failure stores the `"error"`
marker while the query still succeeds. -/
theorem C8_query_status (poll : PollOutcome) (qid : String) (s : EngineState) :
    (s.jobs.lookup qid = none →
       get_status poll qid s = (s, .error ⟨404, "Job not found"⟩)) ∧
    (∀ job, s.jobs.lookup qid = some job →
       ∃ view, (get_status poll qid s).2 = .ok view ∧
         view.job_id = qid ∧ view.status = job.status ∧ view.action = job.action ∧
         view.result = job.result ∧
         (s.payment_instances.contains qid = false →
            view.payment_status = job.payment_status) ∧
         (s.payment_instances.contains qid = true →
            ∀ m, poll = .fail m → view.payment_status = some "error")) := by
  constructor
  · intro h
    exact get_status_eq_notfound poll qid s h
  · intro job hjob
    cases hc : s.payment_instances.contains qid with
    | false =>
      refine ⟨{ job_id := qid, status := job.status,
                payment_status := job.payment_status, action := job.action,
                result := job.result },
              ?_, rfl, rfl, rfl, rfl, fun _ => rfl, fun hcontra => ?_⟩
      · rw [get_status_eq_noinstance poll qid s job hjob hc]
      · exact absurd hcontra (by simp)
    | true =>
      cases poll with
      | ok st =>
        refine ⟨{ job_id := qid, status := job.status, payment_status := st,
                  action := job.action, result := job.result },
                ?_, rfl, rfl, rfl, rfl, fun hcontra => ?_, fun _ m hm => ?_⟩
        · rw [get_status_eq_poll_ok st qid s job hjob hc]
        · exact absurd hcontra (by simp)
        · exact absurd hm (by simp)
      | fail m0 =>
        refine ⟨{ job_id := qid, status := job.status, payment_status := some "error",
                  action := job.action, result := job.result },
                ?_, rfl, rfl, rfl, rfl, fun hcontra => ?_, fun _ m hm => rfl⟩
        · rw [get_status_eq_poll_fail m0 qid s job hjob hc]
        · exact absurd hcontra (by simp)

/-- Witness for C8: a failing poll on the freshly created job still
returns a successful view with the `"error"` payment-status marker. -/
theorem C8_witness :
    ∃ view, (get_status (.fail "net down") "j1" dupS1).2 = .ok view ∧
      view.job_id = "j1" ∧ view.status = dupJob1.status ∧
      view.action = dupJob1.action ∧ view.result = dupJob1.result ∧
      (dupS1.payment_instances.contains "j1" = false →
         view.payment_status = dupJob1.payment_status) ∧
      (dupS1.payment_instances.contains "j1" = true →
         ∀ m, (PollOutcome.fail "net down") = .fail m →
           view.payment_status = some "error") :=
  (C8_query_status (.fail "net down") "j1" dupS1).2 dupJob1 rfl

/-- C10: the fee policy is fixed per action and strictly ordered — the
`create_project` fee exceeds the `interact` fee, which is strictly
positive; every successful `create_project` / `interact` job carries
exactly its action's fee; and the free operation `setup_info` reads
only the entitlement store, creating no payment instrument. -/
theorem C10_fee_policy :
    decimalValue interact_amount < decimalValue create_project_amount ∧
    0 < decimalValue interact_amount ∧
    (∀ env jobId us idf repo w sd s resp,
       (create_project env jobId us idf repo w sd s).2 = .ok resp →
         resp.amount = create_project_amount) ∧
    (∀ env jobId idf p pr s resp,
       (interact env jobId idf p pr s).2 = .ok resp → resp.amount = interact_amount) ∧
    (∀ out pid body s t, s.project_payments = t.project_payments →
       setup_info out pid body s = setup_info out pid body t) := by
  refine ⟨by decide, by decide, ?_, ?_, ?_⟩
  · intro env jobId us idf repo w sd s resp h
    unfold create_project create_payment_job at h
    cases henv : env.createRequest with
    | error msg =>
      rw [henv] at h
      exact absurd h (by simp)
    | ok pr =>
      rw [henv] at h
      cases hmon : env.startMonitoring with
      | error m =>
        rw [hmon] at h
        exact absurd h (by simp)
      | ok u =>
        rw [hmon] at h
        have h2 := Except.ok.inj h
        rw [← h2]
  · intro env jobId idf p pr s resp h
    unfold interact create_payment_job at h
    cases henv : env.createRequest with
    | error msg =>
      rw [henv] at h
      exact absurd h (by simp)
    | ok pr2 =>
      rw [henv] at h
      cases hmon : env.startMonitoring with
      | error m =>
        rw [hmon] at h
        exact absurd h (by simp)
      | ok u =>
        rw [hmon] at h
        have h2 := Except.ok.inj h
        rw [← h2]
  · intro out pid body s t hpp
    unfold setup_info
    rw [hpp]

/-- Witness for C10 at a concrete successful `create_project` call. -/
theorem C10_witness :
    ({ job_id := "j7", blockchainIdentifier := "pay1", submitResultTime := "t1",
       unlockTime := "t2", externalDisputeUnlockTime := "t3",
       identifierFromPurchaser := "buyer",
       amount := create_project_amount } : JobResponse).amount
      = create_project_amount :=
  C10_fee_policy.2.2.1 envCreateOK "j7" "u77" "buyer" "https://github.com/a/x.git"
    "wallet" "light" init _ rfl

/-- C6: a settled job whose dispatch fails (timeout or non-2xx
downstream response) ends `failed` with a non-empty error, its result
stays empty, exactly one dispatch was attempted (no retry), and payment
monitoring is released. -/
theorem C6_dispatch_failure (env : CallbackEnv) (jobId pid action : String)
    (payload : Payload) (s : EngineState) (job : Job)
    (hjob : s.jobs.lookup jobId = some job)
    (hres : job.result = none)
    (hfail : env.dispatch = .timeout ∨ ∃ code text, env.dispatch = .httpError code text) :
    statusOf (process_payment_and_execute env jobId pid action payload s) jobId
      = some "failed" ∧
    (∃ msg, errorOf (process_payment_and_execute env jobId pid action payload s) jobId
      = some msg ∧ msg ≠ "") ∧
    resultOf (process_payment_and_execute env jobId pid action payload s) jobId
      = some none ∧
    (process_payment_and_execute env jobId pid action payload s).payment_instances.contains jobId
      = false ∧
    (process_payment_and_execute env jobId pid action payload s).dispatchLog
      = s.dispatchLog ++ [payload.endpoint] := by
  have hcall : ∃ e : HTTPExn, call_express_api payload.method env.dispatch = .error e := by
    unfold call_express_api
    by_cases hm : payload.method = "POST" ∨ payload.method = "GET"
    · rw [if_pos hm]
      rcases hfail with h | ⟨code, text, h⟩ <;> rw [h] <;> exact ⟨_, rfl⟩
    · rw [if_neg hm]
      exact ⟨_, rfl⟩
  obtain ⟨e, hcall⟩ := hcall
  have h1 := s1_lookup hjob payload.endpoint
  rw [ppae_eq_dispatch_error env jobId pid action payload s e hcall]
  refine ⟨callbackFail_statusOf h1 _,
          ⟨e.str, callbackFail_errorOf h1 _, httpExn_str_ne_empty e⟩, ?_,
          callbackFail_not_contains _ _ _, ?_⟩
  · rw [callbackFail_resultOf h1]
    show some job.result = some none
    rw [hres]
  · rw [← ppae_eq_dispatch_error env jobId pid action payload s e hcall]
    exact ppae_dispatchLog env jobId pid action payload s

/-- Witness for C6: the fresh job `"j1"` settled with a dispatch
timeout. -/
theorem C6_witness :
    statusOf (process_payment_and_execute cbTimeout "j1" "pay1" "create_project"
        payloadPX dupS1) "j1" = some "failed" ∧
    (∃ msg, errorOf (process_payment_and_execute cbTimeout "j1" "pay1" "create_project"
        payloadPX dupS1) "j1" = some msg ∧ msg ≠ "") ∧
    resultOf (process_payment_and_execute cbTimeout "j1" "pay1" "create_project"
        payloadPX dupS1) "j1" = some none ∧
    (process_payment_and_execute cbTimeout "j1" "pay1" "create_project"
        payloadPX dupS1).payment_instances.contains "j1" = false ∧
    (process_payment_and_execute cbTimeout "j1" "pay1" "create_project"
        payloadPX dupS1).dispatchLog = dupS1.dispatchLog ++ [payloadPX.endpoint] :=
  C6_dispatch_failure cbTimeout "j1" "pay1" "create_project" payloadPX dupS1 dupJob1
    rfl rfl (Or.inl rfl)

/-- C9: if the dispatch succeeds but the `complete_payment` report to
the payment network raises, the job still ends `failed` with the error
recorded, its result stays empty, monitoring is released — and no
entitlement record is written even for a `create_project` action. -/
theorem C9_complete_payment_failure (env : CallbackEnv) (jobId pid action : String)
    (payload : Payload) (s : EngineState) (job : Job) (r : Json) (msg : String)
    (hjob : s.jobs.lookup jobId = some job)
    (hres : job.result = none)
    (hc : s.payment_instances.contains jobId = true)
    (hm : payload.method = "POST" ∨ payload.method = "GET")
    (hdisp : env.dispatch = .ok r)
    (hcomp : env.completePayment = .error msg) :
    statusOf (process_payment_and_execute env jobId pid action payload s) jobId
      = some "failed" ∧
    errorOf (process_payment_and_execute env jobId pid action payload s) jobId
      = some msg ∧
    resultOf (process_payment_and_execute env jobId pid action payload s) jobId
      = some none ∧
    (process_payment_and_execute env jobId pid action payload s).payment_instances.contains jobId
      = false ∧
    (process_payment_and_execute env jobId pid action payload s).project_payments
      = s.project_payments := by
  have hcall : call_express_api payload.method env.dispatch = .ok r := by
    unfold call_express_api
    rw [if_pos hm, hdisp]
  have h1 := s1_lookup hjob payload.endpoint
  rw [ppae_eq_complete_error env jobId pid action payload s r msg hcall hc hcomp]
  refine ⟨callbackFail_statusOf h1 _, callbackFail_errorOf h1 _, ?_,
          callbackFail_not_contains _ _ _, ?_⟩
  · rw [callbackFail_resultOf h1]
    show some job.result = some none
    rw [hres]
  · rw [callbackFail_project_payments, logDispatch_project_payments, markRunning,
      updateJob_project_payments]

/-- Witness for C9: the fresh job `"j1"` settled with a successful
dispatch but a failing `complete_payment`. -/
theorem C9_witness :
    statusOf (process_payment_and_execute cbCompleteFail "j1" "pay1" "create_project"
        payloadPX dupS1) "j1" = some "failed" ∧
    errorOf (process_payment_and_execute cbCompleteFail "j1" "pay1" "create_project"
        payloadPX dupS1) "j1" = some "masumi down" ∧
    resultOf (process_payment_and_execute cbCompleteFail "j1" "pay1" "create_project"
        payloadPX dupS1) "j1" = some none ∧
    (process_payment_and_execute cbCompleteFail "j1" "pay1" "create_project"
        payloadPX dupS1).payment_instances.contains "j1" = false ∧
    (process_payment_and_execute cbCompleteFail "j1" "pay1" "create_project"
        payloadPX dupS1).project_payments = dupS1.project_payments :=
  C9_complete_payment_failure cbCompleteFail "j1" "pay1" "create_project" payloadPX
    dupS1 dupJob1 (.obj [("projectId", .str "p1")]) "masumi down"
    rfl rfl rfl (Or.inl rfl) rfl rfl

/-- C5: on every reachable engine state, a free operation fails with
the payment-required signal exactly when no entitlement record with a
true flag exists for the key; and once a `create_project` gated job
completes successfully, the free operation on the job's derived key no
longer fails the gate check. -/
theorem C5_gate_iff (ops : List EngineOp) (s : EngineState) (hs : s = runOps init ops)
    (key : String) :
    (∀ out body,
       setup_info out key body s
           = .error ⟨402, "Project creation payment required first"⟩
         ↔ ¬ s.project_payments.lookup key = some true) ∧
    (∀ env jobId pid payload job r,
       s.jobs.lookup jobId = some job →
       s.payment_instances.contains jobId = true →
       (payload.method = "POST" ∨ payload.method = "GET") →
       env.dispatch = .ok r → env.completePayment = .ok () →
       ∀ out body,
         setup_info out (entitlementKey payload.data) body
             (process_payment_and_execute env jobId pid "create_project" payload s)
           ≠ .error ⟨402, "Project creation payment required first"⟩) := by
  have hflags : allFlagsTrue s.project_payments := by
    rw [hs]
    exact runOps_allFlags ops
  constructor
  · intro out body
    constructor
    · intro h hlk
      exact setup_info_gate_open out key body s hlk h
    · intro hne
      cases hl : s.project_payments.lookup key with
      | none => exact setup_info_gate_closed out key body s hl
      | some v =>
        have hv : v = true := hflags _ (lookup_mem hl)
        rw [hv] at hl
        exact absurd hl hne
  · intro env jobId pid payload job r hjob hc hm hdisp hcomp out body
    have hcall : call_express_api payload.method env.dispatch = .ok r := by
      unfold call_express_api
      rw [if_pos hm, hdisp]
    have hfacts := ppae_success_facts env jobId pid "create_project" payload s job r
      hjob hcall hc hcomp
    have hpp := hfacts.2.2.2
    rw [if_pos rfl] at hpp
    have hlk : (process_payment_and_execute env jobId pid "create_project" payload
        s).project_payments.lookup (entitlementKey payload.data) = some true := by
      rw [hpp]
      exact lookup_upsert _ _ _
    exact setup_info_gate_open out _ body _ hlk

/-- Witness for C5: on the reachable state after the completed
`create_project` job, a key with no entitlement record is refused with
the payment-required signal. -/
theorem C5_witness :
    setup_info (.ok .null) "nobody" [] dupS2
      = .error ⟨402, "Project creation payment required first"⟩ :=
  ((C5_gate_iff [.createJob envCreateOK "j1" "buyer" create_project_amount
        "create_project" payloadPX, .settle cbOK "j1" "pay1"] dupS2 rfl "nobody").1
      (.ok .null) []).mpr
    (fun h => by
      have h0 : dupS2.project_payments.lookup "nobody" = none := rfl
      rw [h0] at h
      exact Option.noConfusion h)

/-- C1 counterexample: there is no terminal-state check before
dispatch.  After the job `"j1"` was resolved to `completed` by the
first settlement notification (one dispatch logged), a duplicate
notification executes the dispatch a second time and moves the job to
`failed` instead of leaving it in its first terminal state. -/
theorem C1_counterexample :
    dupS2 = runOp dupS1 (.settle cbOK "j1" "pay1") ∧
    dupS3 = runOp dupS2 (.settle cbOK "j1" "pay1") ∧
    statusOf dupS2 "j1" = some "completed" ∧
    dupS2.dispatchLog.length = 1 ∧
    statusOf dupS3 "j1" = some "failed" ∧
    dupS3.dispatchLog.length = 2 :=
  ⟨rfl, rfl, rfl, rfl, rfl, rfl⟩

/-- C1 (amended): every settlement-callback invocation executes the
dispatch exactly once — nothing guards it with a terminal-state check —
so a duplicate invocation against an already-resolved job (terminal,
monitoring released) re-executes the dispatch and resolves the job to
`failed` rather than leaving it in its first terminal state.
At-most-once dispatch therefore rests on the adapter invoking the
callback at most once per job. -/
theorem C1_amended (env : CallbackEnv) (jobId pid action : String) (payload : Payload)
    (s : EngineState) (job : Job)
    (hjob : s.jobs.lookup jobId = some job)
    (_hterm : job.status = "completed" ∨ job.status = "failed")
    (hrel : s.payment_instances.contains jobId = false) :
    (process_payment_and_execute env jobId pid action payload s).dispatchLog
      = s.dispatchLog ++ [payload.endpoint] ∧
    statusOf (process_payment_and_execute env jobId pid action payload s) jobId
      = some "failed" := by
  refine ⟨ppae_dispatchLog env jobId pid action payload s, ?_⟩
  have h1 := s1_lookup hjob payload.endpoint
  cases hcall : call_express_api payload.method env.dispatch with
  | error e =>
    rw [ppae_eq_dispatch_error env jobId pid action payload s e hcall]
    exact callbackFail_statusOf h1 _
  | ok r =>
    rw [ppae_eq_keyerror env jobId pid action payload s r hcall hrel]
    exact callbackFail_statusOf h1 _

/-- Witness for C1 (amended): the duplicate notification against the
completed job `"j1"`. -/
theorem C1_witness :
    (process_payment_and_execute cbOK "j1" "pay1" "create_project" payloadPX
        dupS2).dispatchLog = dupS2.dispatchLog ++ [payloadPX.endpoint] ∧
    statusOf (process_payment_and_execute cbOK "j1" "pay1" "create_project" payloadPX
        dupS2) "j1" = some "failed" :=
  C1_amended cbOK "j1" "pay1" "create_project" payloadPX dupS2 dupJob2
    rfl (Or.inl rfl) rfl

/-- C2 counterexample: a job's status is not monotonic under engine
operations — after the first settlement resolved `"j1"` to
`completed`, one more settlement operation (a duplicate notification)
mutates the terminal record to `failed`. -/
theorem C2_counterexample :
    dupS3 = runOp dupS2 (.settle cbOK "j1" "pay1") ∧
    statusOf dupS2 "j1" = some "completed" ∧
    statusOf dupS3 "j1" = some "failed" :=
  ⟨rfl, rfl, rfl⟩

/-- C2 (amended): provided each job receives its settlement callback at
most once, the status follows
`awaiting_payment → running → {completed, failed}`: the callback first
marks the job `running` and always resolves it to a terminal status,
while status queries, settlements of other jobs and creations of other
jobs never change this job's status.  A duplicate callback, however,
re-enters `running` and mutates the terminal record (see the
counterexample). -/
theorem C2_amended (s : EngineState) (jobId : String) :
    (∀ env pid action payload job, s.jobs.lookup jobId = some job →
       statusOf (markRunning s jobId) jobId = some "running" ∧
       (statusOf (process_payment_and_execute env jobId pid action payload s) jobId
           = some "completed" ∨
        statusOf (process_payment_and_execute env jobId pid action payload s) jobId
           = some "failed")) ∧
    (∀ poll qid, statusOf (runOp s (.query poll qid)) jobId = statusOf s jobId) ∧
    (∀ env pid j2, j2 ≠ jobId →
       statusOf (runOp s (.settle env j2 pid)) jobId = statusOf s jobId) ∧
    (∀ env j2 idf amt act pl, j2 ≠ jobId →
       statusOf (runOp s (.createJob env j2 idf amt act pl)) jobId = statusOf s jobId) := by
  refine ⟨?_, ?_, ?_, ?_⟩
  · intro env pid action payload job hjob
    constructor
    · unfold statusOf
      rw [markRunning_lookup hjob]
      rfl
    · rcases ppae_terminal env jobId pid action payload s job hjob with h | ⟨h, _⟩
      · exact Or.inl h
      · exact Or.inr h
  · intro poll qid
    exact get_status_statusOf poll qid s jobId
  · intro env pid j2 hne
    show statusOf (match s.jobs.lookup j2 with
      | none => s
      | some j => process_payment_and_execute env j2 pid j.action j.payload s) jobId
        = statusOf s jobId
    cases hl : s.jobs.lookup j2 with
    | none => rfl
    | some j =>
      unfold statusOf
      rw [ppae_lookup_ne env j2 pid j.action j.payload s (Ne.symm hne)]
  · intro env j2 idf amt act pl hne
    show statusOf (create_payment_job env j2 idf amt act pl s).1 jobId = statusOf s jobId
    unfold statusOf
    rw [cpj_lookup_ne env j2 idf amt act pl s (Ne.symm hne)]

/-- Witness for C2 (amended): the single settlement of the fresh job
`"j1"` passes through `running` and ends terminal. -/
theorem C2_witness :
    statusOf (markRunning dupS1 "j1") "j1" = some "running" ∧
    (statusOf (process_payment_and_execute cbOK "j1" "pay1" "create_project" payloadPX
        dupS1) "j1" = some "completed" ∨
     statusOf (process_payment_and_execute cbOK "j1" "pay1" "create_project" payloadPX
        dupS1) "j1" = some "failed") :=
  (C2_amended dupS1 "j1").1 cbOK "pay1" "create_project" payloadPX dupJob1 rfl

/-- C3 counterexample: an error after the job record exists does not
always resolve it to `failed` — when `start_status_monitoring` raises
during job creation, the creation call propagates the error while the
stored job stays in `awaiting_payment` (no error recorded, its payment
instance still registered), stuck forever since no callback was
registered. -/
theorem C3_counterexample :
    (create_payment_job envMonFail "j1" "buyer" create_project_amount
        "create_project" payloadPX init).2 = .error "monitor boom" ∧
    statusOf stuckS "j1" = some "awaiting_payment" ∧
    errorOf stuckS "j1" = none ∧
    stuckS.payment_instances.contains "j1" = true :=
  ⟨rfl, rfl, rfl, rfl⟩

/-- C3 (amended): every error raised inside the settlement callback —
dispatch failure, payment-completion failure, or the duplicate-callback
`KeyError` — resolves the stored job to the terminal state `failed`
with its error recorded (otherwise the callback completes the job); a
monitoring-start failure during job creation, however, leaves the
stored job in `awaiting_payment` (see the counterexample). -/
theorem C3_amended (env : CallbackEnv) (jobId pid action : String) (payload : Payload)
    (s : EngineState) (job : Job) (hjob : s.jobs.lookup jobId = some job) :
    statusOf (process_payment_and_execute env jobId pid action payload s) jobId
        = some "completed" ∨
      (statusOf (process_payment_and_execute env jobId pid action payload s) jobId
        = some "failed" ∧
       ∃ msg, errorOf (process_payment_and_execute env jobId pid action payload s) jobId
        = some msg) :=
  ppae_terminal env jobId pid action payload s job hjob

/-- Witness for C3 (amended): the timed-out dispatch on `"j1"` resolves
it to `failed` with an error recorded. -/
theorem C3_witness :
    statusOf (process_payment_and_execute cbTimeout "j1" "pay1" "create_project"
        payloadPX dupS1) "j1" = some "completed" ∨
      (statusOf (process_payment_and_execute cbTimeout "j1" "pay1" "create_project"
          payloadPX dupS1) "j1" = some "failed" ∧
       ∃ msg, errorOf (process_payment_and_execute cbTimeout "j1" "pay1" "create_project"
          payloadPX dupS1) "j1" = some msg) :=
  C3_amended cbTimeout "j1" "pay1" "create_project" payloadPX dupS1 dupJob1 rfl

/-- C4 counterexample: the entitlement key is not taken from the
dispatcher's result.  Job `"j1"` completed with result
`{"projectId": "p1"}`, yet the entitlement record was written for the
payload's key `"pX"`, and a subsequent free `setup_info` with `"p1"`
is refused with the payment-required signal. -/
theorem C4_counterexample :
    statusOf dupS2 "j1" = some "completed" ∧
    resultOf dupS2 "j1" = some (some (.obj [("projectId", .str "p1")])) ∧
    dupS2.project_payments.lookup "p1" = none ∧
    dupS2.project_payments.lookup "pX" = some true ∧
    setup_info (.ok .null) "p1" [] dupS2
      = .error ⟨402, "Project creation payment required first"⟩ :=
  ⟨rfl, rfl, rfl, rfl, rfl⟩

/-- C4 (amended): when a gated `create_project` job completes
successfully, the entitlement record is written for the key derived
from the job's payload — `data["projectId"]` when present, else the
last `/`-segment of `data["repoUrl"]` — not for any identifier in the
dispatcher's result; a subsequent free `setup_info` with that derived
key passes the gate and succeeds. -/
theorem C4_amended (env : CallbackEnv) (jobId pid : String) (payload : Payload)
    (s : EngineState) (job : Job) (r : Json)
    (hjob : s.jobs.lookup jobId = some job)
    (hc : s.payment_instances.contains jobId = true)
    (hm : payload.method = "POST" ∨ payload.method = "GET")
    (hdisp : env.dispatch = .ok r)
    (hcomp : env.completePayment = .ok ()) :
    statusOf (process_payment_and_execute env jobId pid "create_project" payload s) jobId
      = some "completed" ∧
    resultOf (process_payment_and_execute env jobId pid "create_project" payload s) jobId
      = some (some r) ∧
    (process_payment_and_execute env jobId pid "create_project" payload
        s).project_payments.lookup (entitlementKey payload.data) = some true ∧
    (∀ r' body, setup_info (.ok r') (entitlementKey payload.data) body
        (process_payment_and_execute env jobId pid "create_project" payload s)
      = .ok (.obj [("status", .str "success"), ("result", r')])) := by
  have hcall : call_express_api payload.method env.dispatch = .ok r := by
    unfold call_express_api
    rw [if_pos hm, hdisp]
  have hfacts := ppae_success_facts env jobId pid "create_project" payload s job r
    hjob hcall hc hcomp
  have hpp := hfacts.2.2.2
  rw [if_pos rfl] at hpp
  have hlk : (process_payment_and_execute env jobId pid "create_project" payload
      s).project_payments.lookup (entitlementKey payload.data) = some true := by
    rw [hpp]
    exact lookup_upsert _ _ _
  exact ⟨hfacts.1, hfacts.2.1, hlk,
    fun r' body => setup_info_gate_open_ok r' _ body _ hlk⟩

/-- Witness for C4 (amended): the successful settlement of `"j1"`
writes the entitlement for the payload-derived key `"pX"` and
`setup_info` on `"pX"` then succeeds. -/
theorem C4_witness :
    statusOf (process_payment_and_execute cbOK "j1" "pay1" "create_project" payloadPX
        dupS1) "j1" = some "completed" ∧
    resultOf (process_payment_and_execute cbOK "j1" "pay1" "create_project" payloadPX
        dupS1) "j1" = some (some (.obj [("projectId", .str "p1")])) ∧
    (process_payment_and_execute cbOK "j1" "pay1" "create_project" payloadPX
        dupS1).project_payments.lookup (entitlementKey payloadPX.data) = some true ∧
    (∀ r' body, setup_info (.ok r') (entitlementKey payloadPX.data) body
        (process_payment_and_execute cbOK "j1" "pay1" "create_project" payloadPX dupS1)
      = .ok (.obj [("status", .str "success"), ("result", r')])) :=
  C4_amended cbOK "j1" "pay1" payloadPX dupS1 dupJob1 (.obj [("projectId", .str "p1")])
    rfl rfl (Or.inl rfl) rfl rfl

end Jedi
